import Mathlib

/-!
Verification of `src/VSR/Models/Idn.py`, the Information Distillation
Network (IDN) architecture built on top of the `SuperResolution` base
framework.  The TensorFlow graph construction is embedded shallowly:
tensors become a symbolic expression type, the mutable per-model lists
(`outputs`, `label`, `loss`, `metrics`) become an explicit state record,
and the three lifecycle hooks `build_graph` / `build_loss` /
`build_summary` become state-passing functions.  A channel-count
semantics `channels` over the expression type settles the
shape-compatibility claims.
-/

/-- Tensor element dtypes that appear in `Idn.py` (`tf.uint8` for the
label placeholder, `tf.float32` after the cast). -/
inductive DType where
  | uint8
  | float32
deriving DecidableEq, Repr

/-- Symbolic tensor expressions: one constructor per TensorFlow
operation used in `Idn.py`.  Every `conv2d` / `conv2d_transpose` in the
source uses `padding='same'`, an l2 kernel regularizer with the model's
`weight_decay`, and the `he_normal` initializer, so the embedding records
the filter count, the kernel size, the stride (for the transpose) and the
weight-decay coefficient. -/
inductive Tensor where
  /-- a placeholder of `dtype` with the given static shape on each axis
  (`none` for a dynamic axis), as in `tf.placeholder` -/
  | placeholder (dtype : DType) (shape : List (Option Nat))
  /-- the preprocessed network input supplied by the base class -/
  | input
  /-- `tf.layers.conv2d(x, filters, kernel, padding='same', ...)` -/
  | conv2d (x : Tensor) (filters kernel : Nat) (wd : Rat)
  /-- `tf.layers.conv2d_transpose(x, filters, kernel, strides=stride, padding='same', ...)` -/
  | conv2dTranspose (x : Tensor) (filters kernel stride : Nat) (wd : Rat)
  /-- `tf.nn.leaky_relu(x, slope)` -/
  | leakyRelu (x : Tensor) (slope : Rat)
  /-- `x[..., :k]` : the first `k` channels of the last axis -/
  | sliceBefore (x : Tensor) (k : Nat)
  /-- `x[..., k:]` : the channels of the last axis from `k` on -/
  | sliceFrom (x : Tensor) (k : Nat)
  /-- `tf.concat([x, y], axis=-1)` (the source always concatenates two tensors) -/
  | concat (x y : Tensor)
  /-- elementwise `x + y` -/
  | add (x y : Tensor)
  /-- `tf.cast(x, dtype)` -/
  | cast (x : Tensor) (dtype : DType)
  /-- `tf.losses.mean_squared_error(t, p)` -/
  | mse (t p : Tensor)
  /-- `tf.losses.absolute_difference(t, p)` -/
  | mae (t p : Tensor)
  /-- `tf.add_n(tf.losses.get_regularization_losses())` -/
  | regLosses
  /-- `tf.train.AdamOptimizer(lr).minimize(obj)` -/
  | adamMinimize (lr obj : Tensor)
  /-- `tf.image.psnr(t, p, max_val=maxVal)` -/
  | psnr (t p : Tensor) (maxVal : Nat)
  /-- `tf.image.ssim(t, p, max_val=maxVal)` -/
  | ssim (t p : Tensor) (maxVal : Nat)
  /-- `tf.reduce_mean(x)` -/
  | reduceMean (x : Tensor)
  /-- `self.learning_rate`, supplied by the base class -/
  | learningRate
deriving DecidableEq, Repr

/-- The mutable attributes that `Idn.py` reads and writes.  The base
class `SuperResolution` supplies `inputs_preproc`, `outputs`, `label`,
`loss`, `metrics` (a Python dict, embedded as an association list in
insertion order) and `learning_rate` (embedded via the
`Tensor.learningRate` node). -/
structure ModelState where
  inputs_preproc : List Tensor
  outputs : List Tensor
  label : List Tensor
  loss : List Tensor
  metrics : List (String × Tensor)
deriving DecidableEq, Repr

/-- Python dict assignment `d[k] = v`: replace the value when the key is
present, otherwise append the new pair at the end. -/
def dictInsert (d : List (String × Tensor)) (k : String) (v : Tensor) :
    List (String × Tensor) :=
  if d.any (fun p => p.1 = k) then
    d.map (fun p => if p.1 = k then (k, v) else p)
  else
    d ++ [(k, v)]

/-- Hyperparameters of `InformationDistillationNetwork.__init__`:
`scale`, `blocks`, `D := filters`, `d := delta`, `s := slice_factor`,
`leaky_slope`, `weight_decay`, `fine_tune`, `name`. -/
structure Idn where
  scale : Nat
  blocks : Nat
  D : Nat
  d : Nat
  s : Nat
  leaky_slope : Rat
  weight_decay : Rat
  fine_tune : Bool
  name : String
deriving DecidableEq, Repr

/-- `__init__(scale, blocks=4, filters=64, delta=16, slice_factor=4,
leaky_slope=0.05, weight_decay=1e-4, fine_tune=False, name='idn')` with
every keyword left at its default. -/
def Idn.default (scale : Nat) : Idn :=
  { scale := scale
    blocks := 4
    D := 64
    d := 16
    s := 4
    leaky_slope := 1/20
    weight_decay := 1/10000
    fine_tune := false
    name := "idn" }

/-- Modelled from the spec: the body of `SuperResolution.build_graph` is
not under `src/`; per the spec the abstract base class supplies the
preprocessed inputs (`inputs_preproc`) to the subclass.  It is modelled
as publishing one preprocessed input tensor and touching nothing else. -/
def SuperResolution.build_graph (st : ModelState) : ModelState :=
  { st with inputs_preproc := st.inputs_preproc ++ [Tensor.input] }

/-- `_make_idn(self, inputs, D3=64, d=16, s=4)`: one information
distillation block (enhancement unit, then compression unit), translated
line by line from `Idn.py` lines 91-128.  The two Python `for` loops over
`D[:3]` and `D[3:]` become `List.foldl`. -/
def _make_idn (wd slope : Rat) (inputs : Tensor) (D3 d s : Nat) : Tensor :=
  let D1 := D3 - d
  let D2 := D1 - d
  let D4 := D3
  let D5 := D4 - d
  let D6 := D4 + d
  let Ds := [D1, D2, D3, D4, D5, D6]
  let x := (Ds.take 3).foldl
    (fun x _D => Tensor.leakyRelu (Tensor.conv2d x _D 3 wd) slope) inputs
  let R := Tensor.sliceBefore x (D3 / s)
  let P2 := Tensor.sliceFrom x (D3 / s)
  let x := (Ds.drop 3).foldl
    (fun x _D => Tensor.leakyRelu (Tensor.conv2d x _D 3 wd) slope) P2
  let x := Tensor.add x (Tensor.concat inputs R)
  Tensor.conv2d x D3 1 wd

/-- The `for _ in range(self.blocks)` loop of `build_graph` lines 55-56:
apply `_make_idn` `n` times in sequence. -/
def distillLoop (wd slope : Rat) (D d s : Nat) : Nat → Tensor → Tensor
  | 0, x => x
  | n + 1, x => distillLoop wd slope D d s n (_make_idn wd slope x D d s)

/-- Everything `build_graph` does after the `super().build_graph()` call
(lines 44-61): feature extraction, the distillation blocks, the
transposed-convolution reconstruction, and the append to `outputs`.
`self.inputs_preproc[-1]` requires a nonempty list (guaranteed by the
base call); the embedding reads the last element with a default. -/
def build_graph_body (m : Idn) (st : ModelState) : ModelState :=
  let x := st.inputs_preproc.getLastD Tensor.input
  let x := Tensor.leakyRelu (Tensor.conv2d x m.D 3 m.weight_decay) m.leaky_slope
  let x := Tensor.leakyRelu (Tensor.conv2d x m.D 3 m.weight_decay) m.leaky_slope
  let x := distillLoop m.weight_decay m.leaky_slope m.D m.d m.s m.blocks x
  let x := Tensor.conv2dTranspose x 1 17 m.scale m.weight_decay
  { st with outputs := st.outputs ++ [x] }

/-- `build_graph` (lines 41-61): the `super().build_graph()` call, then
the subclass's own layers. -/
def build_graph (m : Idn) (st : ModelState) : ModelState :=
  build_graph_body m (SuperResolution.build_graph st)

/-- `build_loss` (lines 63-82), translated line by line.  `label[-1]` and
`outputs[-1]` read the last elements (nonempty at this point of the
lifecycle); the embedding uses a default for totality. -/
def build_loss (m : Idn) (st : ModelState) : ModelState :=
  let label := st.label ++ [Tensor.placeholder DType.uint8 [none, none, none, some 1]]
  let y_true := Tensor.cast (label.getLastD Tensor.input) DType.float32
  let y_pred := st.outputs.getLastD Tensor.input
  let mse := Tensor.mse y_true y_pred
  let mae := Tensor.mae y_true y_pred
  let regular_loss := Tensor.regLosses
  let loss := if m.fine_tune then Tensor.add mae regular_loss
              else Tensor.add mse regular_loss
  let metrics := dictInsert st.metrics "mse" mse
  let metrics := dictInsert metrics "mae" mae
  let metrics := dictInsert metrics "regularization" regular_loss
  let metrics := dictInsert metrics "psnr" (Tensor.psnr y_true y_pred 255)
  let metrics := dictInsert metrics "ssim" (Tensor.ssim y_true y_pred 255)
  { st with
      label := label
      loss := st.loss ++ [Tensor.adamMinimize Tensor.learningRate loss]
      metrics := metrics }

/-- `build_summary` (lines 84-89): five `tf.summary.scalar` calls,
embedded as the published (tag, value) list.  Each `self.metrics[...]`
read raises `KeyError` when the key is missing, hence the `Option`. -/
def build_summary (st : ModelState) : Option (List (String × Tensor)) :=
  match st.metrics.lookup "mse", st.metrics.lookup "mae",
        st.metrics.lookup "regularization",
        st.metrics.lookup "psnr", st.metrics.lookup "ssim" with
  | some m1, some m2, some m3, some m4, some m5 =>
      some [("loss/mse", m1), ("loss/mae", m2), ("loss/weight", m3),
            ("metric/psnr", Tensor.reduceMean m4),
            ("metric/ssim", Tensor.reduceMean m5)]
  | _, _, _, _, _ => none

/-- The names of the methods defined by class
`InformationDistillationNetwork` in `Idn.py`, in source order. -/
def idn_method_names : List String :=
  ["__init__", "build_graph", "build_loss", "build_summary", "_make_idn"]

/-- The three lifecycle hooks of the `SuperResolution` base framework,
per the spec. -/
def lifecycle_hooks : List String :=
  ["build_graph", "build_loss", "build_summary"]

/-- Channel count of the last axis of a symbolic tensor, given `cin`
channels for the network input.  `none` means the operation is
shape-incompatible there (or, for scalar loss/metric nodes, that no
channel axis is tracked).  The elementwise `add` of the residual path
requires equal channel counts. -/
def channels (cin : Nat) : Tensor → Option Nat
  | Tensor.placeholder _ shape => shape.getLastD none
  | Tensor.input => some cin
  | Tensor.conv2d x f _ _ => (channels cin x).map (fun _ => f)
  | Tensor.conv2dTranspose x f _ _ _ => (channels cin x).map (fun _ => f)
  | Tensor.leakyRelu x _ => channels cin x
  | Tensor.sliceBefore x k =>
      (channels cin x).bind (fun c => if k ≤ c then some k else none)
  | Tensor.sliceFrom x k =>
      (channels cin x).bind (fun c => if k ≤ c then some (c - k) else none)
  | Tensor.concat x y =>
      (channels cin x).bind (fun cx => (channels cin y).map (fun cy => cx + cy))
  | Tensor.add x y =>
      (channels cin x).bind (fun cx =>
        (channels cin y).bind (fun cy => if cx = cy then some cx else none))
  | Tensor.cast x _ => channels cin x
  | Tensor.mse _ _ => none
  | Tensor.mae _ _ => none
  | Tensor.regLosses => none
  | Tensor.adamMinimize _ _ => none
  | Tensor.psnr _ _ _ => none
  | Tensor.ssim _ _ _ => none
  | Tensor.reduceMean _ => none
  | Tensor.learningRate => none

/-! ## Helper lemmas -/

theorem dictInsert_of_fresh (d : List (String × Tensor)) (k : String) (v : Tensor)
    (h : ∀ p ∈ d, p.1 ≠ k) : dictInsert d k v = d ++ [(k, v)] := by
  have hany : d.any (fun p => p.1 = k) = false := by
    simp only [List.any_eq_false, decide_eq_true_eq]
    exact h
  simp [dictInsert, hany]

theorem mem_dictInsert_self (d : List (String × Tensor)) (k : String) (v : Tensor) :
    (k, v) ∈ dictInsert d k v := by
  rw [dictInsert]
  split
  · next h =>
      rw [List.any_eq_true] at h
      obtain ⟨p, hp, hpk⟩ := h
      rw [decide_eq_true_eq] at hpk
      exact List.mem_map.mpr ⟨p, hp, by simp [hpk]⟩
  · exact List.mem_append_right _ (by simp)

theorem mem_dictInsert_of_ne (d : List (String × Tensor)) (k k' : String)
    (v v' : Tensor) (hmem : (k, v) ∈ d) (hne : k ≠ k') :
    (k, v) ∈ dictInsert d k' v' := by
  rw [dictInsert]
  split
  · exact List.mem_map.mpr ⟨(k, v), hmem, by simp [hne]⟩
  · exact List.mem_append_left _ hmem

theorem distillLoop_eq_iterate (wd slope : Rat) (D d s : Nat) (n : Nat) (x : Tensor) :
    distillLoop wd slope D d s n x =
      (fun y => _make_idn wd slope y D d s)^[n] x := by
  induction n generalizing x with
  | zero => rfl
  | succ n ih =>
      show distillLoop wd slope D d s n (_make_idn wd slope x D d s) = _
      rw [ih, Function.iterate_succ_apply]

/-! ## Claim theorems -/

/-- C1: every `_make_idn` call builds an enhancement sub-block — three
stacked 3x3 convolutions each followed by leaky ReLU, a channel split
into the retained slice `R` and the remainder `P2`, three more 3x3
convolutions with leaky ReLU on `P2`, and the concatenation of the block
input with `R` added residually — followed by exactly one 1x1 compression
convolution with `D3` filters, which is the return value. -/
theorem make_idn_is_enhancement_then_compression
    (wd slope : Rat) (inputs : Tensor) (D3 d s : Nat) :
    _make_idn wd slope inputs D3 d s =
      (let c1 := Tensor.leakyRelu (Tensor.conv2d inputs (D3 - d) 3 wd) slope
       let c2 := Tensor.leakyRelu (Tensor.conv2d c1 (D3 - d - d) 3 wd) slope
       let c3 := Tensor.leakyRelu (Tensor.conv2d c2 D3 3 wd) slope
       let R := Tensor.sliceBefore c3 (D3 / s)
       let P2 := Tensor.sliceFrom c3 (D3 / s)
       let c4 := Tensor.leakyRelu (Tensor.conv2d P2 D3 3 wd) slope
       let c5 := Tensor.leakyRelu (Tensor.conv2d c4 (D3 - d) 3 wd) slope
       let c6 := Tensor.leakyRelu (Tensor.conv2d c5 (D3 + d) 3 wd) slope
       Tensor.conv2d (Tensor.add c6 (Tensor.concat inputs R)) D3 1 wd) := rfl

/-- C2: `build_graph` assembles, in order, the two-convolution feature
extraction stage (filters `D`, kernel 3, each followed by leaky ReLU)
applied to the last preprocessed input, then exactly `blocks` successive
distillation blocks, then one transposed convolution with kernel size 17
and stride `scale`, whose result is appended to `outputs`. -/
theorem build_graph_order (m : Idn) (st : ModelState) :
    build_graph m st =
      { SuperResolution.build_graph st with
          outputs := st.outputs ++
            [Tensor.conv2dTranspose
              ((fun y => _make_idn m.weight_decay m.leaky_slope y m.D m.d m.s)^[m.blocks]
                (Tensor.leakyRelu
                  (Tensor.conv2d
                    (Tensor.leakyRelu (Tensor.conv2d Tensor.input m.D 3 m.weight_decay)
                      m.leaky_slope)
                    m.D 3 m.weight_decay)
                  m.leaky_slope))
              1 17 m.scale m.weight_decay] } := by
  unfold build_graph build_graph_body SuperResolution.build_graph
  simp [List.getLastD_concat, distillLoop_eq_iterate]

/-- C4: when the distillation block is applied to a feature map with
`filters` channels (as every call from `build_graph` does, with
`D3 = filters`), the residual addition — the sixth convolution's
`D3 + d` channels against the `D3 + D3 / s` channels of concatenating
the block input with the retained slice — is shape-compatible exactly
when `d = D3 / s`; in particular the whole block is well-shaped for the
default parameters `filters=64, delta=16, slice_factor=4`. -/
theorem residual_add_shape_iff :
    (∀ (wd slope : Rat) (D d s : Nat),
        (channels D (_make_idn wd slope Tensor.input D d s)).isSome = true ↔ d = D / s)
    ∧ (channels 64 (_make_idn (1/10000) (1/20) Tensor.input 64 16 4)).isSome = true := by
  constructor
  · intro wd slope D d s
    simp [_make_idn, channels, Nat.div_le_self]
  · rfl

/-- C5: in every distillation block (block input with `cin` channels),
the split after the third convolution yields a retained slice with the
first `D3 / s` channels and a further-processed slice with the remaining
`D3 - D3 / s` channels, and only the further-processed slice `P2` is fed
to the subsequent convolutions (the retained slice reappears only in the
residual concatenation). -/
theorem distillation_block_split (cin : Nat) (wd slope : Rat) (D3 d s : Nat) :
    channels cin
        (Tensor.leakyRelu (Tensor.conv2d
          (Tensor.leakyRelu (Tensor.conv2d
            (Tensor.leakyRelu (Tensor.conv2d Tensor.input (D3 - d) 3 wd) slope)
            (D3 - d - d) 3 wd) slope)
          D3 3 wd) slope) = some D3
    ∧ channels cin
        (Tensor.sliceBefore
          (Tensor.leakyRelu (Tensor.conv2d
            (Tensor.leakyRelu (Tensor.conv2d
              (Tensor.leakyRelu (Tensor.conv2d Tensor.input (D3 - d) 3 wd) slope)
              (D3 - d - d) 3 wd) slope)
            D3 3 wd) slope)
          (D3 / s)) = some (D3 / s)
    ∧ channels cin
        (Tensor.sliceFrom
          (Tensor.leakyRelu (Tensor.conv2d
            (Tensor.leakyRelu (Tensor.conv2d
              (Tensor.leakyRelu (Tensor.conv2d Tensor.input (D3 - d) 3 wd) slope)
              (D3 - d - d) 3 wd) slope)
            D3 3 wd) slope)
          (D3 / s)) = some (D3 - D3 / s)
    ∧ _make_idn wd slope Tensor.input D3 d s =
        Tensor.conv2d
          (Tensor.add
            (Tensor.leakyRelu (Tensor.conv2d
              (Tensor.leakyRelu (Tensor.conv2d
                (Tensor.leakyRelu (Tensor.conv2d
                  (Tensor.sliceFrom
                    (Tensor.leakyRelu (Tensor.conv2d
                      (Tensor.leakyRelu (Tensor.conv2d
                        (Tensor.leakyRelu (Tensor.conv2d Tensor.input (D3 - d) 3 wd) slope)
                        (D3 - d - d) 3 wd) slope)
                      D3 3 wd) slope)
                    (D3 / s))
                  D3 3 wd) slope)
                (D3 - d) 3 wd) slope)
              (D3 + d) 3 wd) slope)
            (Tensor.concat Tensor.input
              (Tensor.sliceBefore
                (Tensor.leakyRelu (Tensor.conv2d
                  (Tensor.leakyRelu (Tensor.conv2d
                    (Tensor.leakyRelu (Tensor.conv2d Tensor.input (D3 - d) 3 wd) slope)
                    (D3 - d - d) 3 wd) slope)
                  D3 3 wd) slope)
                (D3 / s))))
          D3 1 wd := by
  refine ⟨rfl, ?_, ?_, rfl⟩
  · simp [channels, Nat.div_le_self]
  · simp [channels, Nat.div_le_self]

theorem build_loss_metrics_eq (m : Idn) (st : ModelState) :
    (build_loss m st).metrics =
      dictInsert (dictInsert (dictInsert (dictInsert (dictInsert st.metrics
        "mse" (Tensor.mse
          (Tensor.cast (Tensor.placeholder DType.uint8 [none, none, none, some 1])
            DType.float32)
          (st.outputs.getLastD Tensor.input)))
        "mae" (Tensor.mae
          (Tensor.cast (Tensor.placeholder DType.uint8 [none, none, none, some 1])
            DType.float32)
          (st.outputs.getLastD Tensor.input)))
        "regularization" Tensor.regLosses)
        "psnr" (Tensor.psnr
          (Tensor.cast (Tensor.placeholder DType.uint8 [none, none, none, some 1])
            DType.float32)
          (st.outputs.getLastD Tensor.input) 255))
        "ssim" (Tensor.ssim
          (Tensor.cast (Tensor.placeholder DType.uint8 [none, none, none, some 1])
            DType.float32)
          (st.outputs.getLastD Tensor.input) 255) := by
  simp [build_loss, List.getLastD_concat]

theorem build_loss_loss_eq (m : Idn) (st : ModelState) :
    (build_loss m st).loss = st.loss ++
      [Tensor.adamMinimize Tensor.learningRate
        (if m.fine_tune then
          Tensor.add (Tensor.mae
            (Tensor.cast (Tensor.placeholder DType.uint8 [none, none, none, some 1])
              DType.float32)
            (st.outputs.getLastD Tensor.input)) Tensor.regLosses
        else
          Tensor.add (Tensor.mse
            (Tensor.cast (Tensor.placeholder DType.uint8 [none, none, none, some 1])
              DType.float32)
            (st.outputs.getLastD Tensor.input)) Tensor.regLosses)] := by
  simp [build_loss, List.getLastD_concat]

/-- C3: `build_loss` records the two error metrics (mean squared error
and mean absolute error between the cast label and the last output) and
the image-quality metrics PSNR and SSIM in the metrics map under keys
'mse', 'mae', 'psnr', 'ssim' (plus 'regularization'), and appends exactly
one Adam-optimizer minimize operation over the training objective to the
loss list. -/
theorem build_loss_metrics_and_optimizer (m : Idn) (st : ModelState) :
    ("mse", Tensor.mse
        (Tensor.cast (Tensor.placeholder DType.uint8 [none, none, none, some 1])
          DType.float32)
        (st.outputs.getLastD Tensor.input)) ∈ (build_loss m st).metrics
    ∧ ("mae", Tensor.mae
        (Tensor.cast (Tensor.placeholder DType.uint8 [none, none, none, some 1])
          DType.float32)
        (st.outputs.getLastD Tensor.input)) ∈ (build_loss m st).metrics
    ∧ ("regularization", Tensor.regLosses) ∈ (build_loss m st).metrics
    ∧ ("psnr", Tensor.psnr
        (Tensor.cast (Tensor.placeholder DType.uint8 [none, none, none, some 1])
          DType.float32)
        (st.outputs.getLastD Tensor.input) 255) ∈ (build_loss m st).metrics
    ∧ ("ssim", Tensor.ssim
        (Tensor.cast (Tensor.placeholder DType.uint8 [none, none, none, some 1])
          DType.float32)
        (st.outputs.getLastD Tensor.input) 255) ∈ (build_loss m st).metrics
    ∧ ∃ objective, (build_loss m st).loss =
        st.loss ++ [Tensor.adamMinimize Tensor.learningRate objective] := by
  rw [build_loss_metrics_eq]
  refine ⟨?_, ?_, ?_, ?_, ?_, ?_⟩
  · exact mem_dictInsert_of_ne _ _ _ _ _
      (mem_dictInsert_of_ne _ _ _ _ _
        (mem_dictInsert_of_ne _ _ _ _ _
          (mem_dictInsert_of_ne _ _ _ _ _
            (mem_dictInsert_self _ _ _) (by decide)) (by decide)) (by decide)) (by decide)
  · exact mem_dictInsert_of_ne _ _ _ _ _
      (mem_dictInsert_of_ne _ _ _ _ _
        (mem_dictInsert_of_ne _ _ _ _ _
          (mem_dictInsert_self _ _ _) (by decide)) (by decide)) (by decide)
  · exact mem_dictInsert_of_ne _ _ _ _ _
      (mem_dictInsert_of_ne _ _ _ _ _
        (mem_dictInsert_self _ _ _) (by decide)) (by decide)
  · exact mem_dictInsert_of_ne _ _ _ _ _ (mem_dictInsert_self _ _ _) (by decide)
  · exact mem_dictInsert_self _ _ _
  · exact ⟨_, build_loss_loss_eq m st⟩

/-- C6: the objective handed to the Adam minimize operation is mean
absolute error plus the regularization loss when `fine_tune` is true and
mean squared error plus the regularization loss when it is false, while
the 'mse' and 'mae' metrics are recorded in both modes. -/
theorem build_loss_objective_mode (m : Idn) (st : ModelState) :
    (build_loss m st).loss = st.loss ++
      [Tensor.adamMinimize Tensor.learningRate
        (if m.fine_tune then
          Tensor.add (Tensor.mae
            (Tensor.cast (Tensor.placeholder DType.uint8 [none, none, none, some 1])
              DType.float32)
            (st.outputs.getLastD Tensor.input)) Tensor.regLosses
        else
          Tensor.add (Tensor.mse
            (Tensor.cast (Tensor.placeholder DType.uint8 [none, none, none, some 1])
              DType.float32)
            (st.outputs.getLastD Tensor.input)) Tensor.regLosses)]
    ∧ ("mse", Tensor.mse
        (Tensor.cast (Tensor.placeholder DType.uint8 [none, none, none, some 1])
          DType.float32)
        (st.outputs.getLastD Tensor.input)) ∈ (build_loss m st).metrics
    ∧ ("mae", Tensor.mae
        (Tensor.cast (Tensor.placeholder DType.uint8 [none, none, none, some 1])
          DType.float32)
        (st.outputs.getLastD Tensor.input)) ∈ (build_loss m st).metrics := by
  refine ⟨build_loss_loss_eq m st, ?_, ?_⟩
  all_goals rw [build_loss_metrics_eq]
  · exact mem_dictInsert_of_ne _ _ _ _ _
      (mem_dictInsert_of_ne _ _ _ _ _
        (mem_dictInsert_of_ne _ _ _ _ _
          (mem_dictInsert_of_ne _ _ _ _ _
            (mem_dictInsert_self _ _ _) (by decide)) (by decide)) (by decide)) (by decide)
  · exact mem_dictInsert_of_ne _ _ _ _ _
      (mem_dictInsert_of_ne _ _ _ _ _
        (mem_dictInsert_of_ne _ _ _ _ _
          (mem_dictInsert_self _ _ _) (by decide)) (by decide)) (by decide)

/-- C7: `build_summary` publishes exactly five scalar summaries —
'loss/mse', 'loss/mae' and 'loss/weight' taken directly from the
corresponding metrics, and 'metric/psnr' and 'metric/ssim' as the means
of the PSNR and SSIM metrics — and nothing else. -/
theorem build_summary_publishes_exactly_five (st : ModelState)
    (m1 m2 m3 m4 m5 : Tensor)
    (h1 : st.metrics.lookup "mse" = some m1)
    (h2 : st.metrics.lookup "mae" = some m2)
    (h3 : st.metrics.lookup "regularization" = some m3)
    (h4 : st.metrics.lookup "psnr" = some m4)
    (h5 : st.metrics.lookup "ssim" = some m5) :
    build_summary st = some
      [("loss/mse", m1), ("loss/mae", m2), ("loss/weight", m3),
       ("metric/psnr", Tensor.reduceMean m4),
       ("metric/ssim", Tensor.reduceMean m5)] := by
  simp [build_summary, h1, h2, h3, h4, h5]

theorem build_summary_publishes_exactly_five_witness :
    (ModelState.mk [] [] [] []
        [("mse", Tensor.input), ("mae", Tensor.input),
         ("regularization", Tensor.regLosses),
         ("psnr", Tensor.input), ("ssim", Tensor.input)]).metrics.lookup "mse"
        = some Tensor.input
    ∧ (ModelState.mk [] [] [] []
        [("mse", Tensor.input), ("mae", Tensor.input),
         ("regularization", Tensor.regLosses),
         ("psnr", Tensor.input), ("ssim", Tensor.input)]).metrics.lookup "ssim"
        = some Tensor.input
    ∧ build_summary (ModelState.mk [] [] [] []
        [("mse", Tensor.input), ("mae", Tensor.input),
         ("regularization", Tensor.regLosses),
         ("psnr", Tensor.input), ("ssim", Tensor.input)]) = some
      [("loss/mse", Tensor.input), ("loss/mae", Tensor.input),
       ("loss/weight", Tensor.regLosses),
       ("metric/psnr", Tensor.reduceMean Tensor.input),
       ("metric/ssim", Tensor.reduceMean Tensor.input)] :=
  ⟨rfl, rfl,
    build_summary_publishes_exactly_five _ _ _ _ _ _ rfl rfl rfl rfl rfl⟩

/-- C9: `InformationDistillationNetwork` overrides exactly the three
lifecycle hooks `build_graph`, `build_loss`, `build_summary` of the base
framework — its only other methods are the constructor and the private
helper `_make_idn` — and its `build_graph` invokes the base class's
`build_graph` before adding its own layers. -/
theorem idn_overrides_exactly_three_hooks :
    idn_method_names.filter (fun n => lifecycle_hooks.contains n) = lifecycle_hooks
    ∧ idn_method_names.filter (fun n => !lifecycle_hooks.contains n)
        = ["__init__", "_make_idn"]
    ∧ ∀ (m : Idn) (st : ModelState),
        build_graph m st = build_graph_body m (SuperResolution.build_graph st) :=
  ⟨rfl, rfl, fun _ _ => rfl⟩

theorem build_loss_metrics_fresh (m : Idn) (st : ModelState)
    (hfresh : ∀ p ∈ st.metrics,
      p.1 ∉ (["mse", "mae", "regularization", "psnr", "ssim"] : List String)) :
    (build_loss m st).metrics = st.metrics ++
      [("mse", Tensor.mse
          (Tensor.cast (Tensor.placeholder DType.uint8 [none, none, none, some 1])
            DType.float32)
          (st.outputs.getLastD Tensor.input)),
       ("mae", Tensor.mae
          (Tensor.cast (Tensor.placeholder DType.uint8 [none, none, none, some 1])
            DType.float32)
          (st.outputs.getLastD Tensor.input)),
       ("regularization", Tensor.regLosses),
       ("psnr", Tensor.psnr
          (Tensor.cast (Tensor.placeholder DType.uint8 [none, none, none, some 1])
            DType.float32)
          (st.outputs.getLastD Tensor.input) 255),
       ("ssim", Tensor.ssim
          (Tensor.cast (Tensor.placeholder DType.uint8 [none, none, none, some 1])
            DType.float32)
          (st.outputs.getLastD Tensor.input) 255)] := by
  have key : ∀ k : String,
      k ∈ (["mse", "mae", "regularization", "psnr", "ssim"] : List String) →
      st.metrics.any (fun p => p.1 = k) = false := by
    intro k hk
    simp only [List.any_eq_false, decide_eq_true_eq]
    intro p hp h
    exact hfresh p hp (h ▸ hk)
  have h1 := key "mse" (by simp)
  have h2 := key "mae" (by simp)
  have h3 := key "regularization" (by simp)
  have h4 := key "psnr" (by simp)
  have h5 := key "ssim" (by simp)
  simp [build_loss_metrics_eq, dictInsert, List.any_append, h1, h2, h3, h4, h5]

/-- C8: `build_graph` appends exactly one tensor to `outputs` and leaves
`label`, `loss` and `metrics` unchanged (its `inputs_preproc` is exactly
what the base call supplies); `build_loss` appends exactly one element
each to `label` and to `loss`, adds exactly the five keys 'mse', 'mae',
'regularization', 'psnr', 'ssim' to `metrics` (when none of them is
already present), and leaves `outputs` unchanged. -/
theorem hook_frame_effects (m : Idn) (st st2 : ModelState)
    (hfresh : ∀ p ∈ st2.metrics,
      p.1 ∉ (["mse", "mae", "regularization", "psnr", "ssim"] : List String)) :
    ((build_graph m st).label = st.label
      ∧ (build_graph m st).loss = st.loss
      ∧ (build_graph m st).metrics = st.metrics
      ∧ (build_graph m st).inputs_preproc = (SuperResolution.build_graph st).inputs_preproc
      ∧ ∃ t, (build_graph m st).outputs = st.outputs ++ [t])
    ∧ ((build_loss m st2).outputs = st2.outputs
      ∧ (∃ l, (build_loss m st2).label = st2.label ++ [l])
      ∧ (∃ op, (build_loss m st2).loss = st2.loss ++ [op])
      ∧ ∃ v1 v2 v3 v4 v5, (build_loss m st2).metrics = st2.metrics ++
          [("mse", v1), ("mae", v2), ("regularization", v3),
           ("psnr", v4), ("ssim", v5)]) := by
  refine ⟨⟨rfl, rfl, rfl, rfl, _, rfl⟩, rfl, ⟨_, rfl⟩, ⟨_, build_loss_loss_eq m st2⟩,
    ⟨_, _, _, _, _, build_loss_metrics_fresh m st2 hfresh⟩⟩

theorem hook_frame_effects_witness :
    (∀ p ∈ (ModelState.mk [] [] [] [] []).metrics,
      p.1 ∉ (["mse", "mae", "regularization", "psnr", "ssim"] : List String))
    ∧ (((build_graph (Idn.default 2) (ModelState.mk [] [] [] [] [])).label
          = (ModelState.mk [] [] [] [] []).label
      ∧ (build_graph (Idn.default 2) (ModelState.mk [] [] [] [] [])).loss
          = (ModelState.mk [] [] [] [] []).loss
      ∧ (build_graph (Idn.default 2) (ModelState.mk [] [] [] [] [])).metrics
          = (ModelState.mk [] [] [] [] []).metrics
      ∧ (build_graph (Idn.default 2) (ModelState.mk [] [] [] [] [])).inputs_preproc
          = (SuperResolution.build_graph (ModelState.mk [] [] [] [] [])).inputs_preproc
      ∧ ∃ t, (build_graph (Idn.default 2) (ModelState.mk [] [] [] [] [])).outputs
          = (ModelState.mk [] [] [] [] []).outputs ++ [t])
    ∧ ((build_loss (Idn.default 2) (ModelState.mk [] [] [] [] [])).outputs
          = (ModelState.mk [] [] [] [] []).outputs
      ∧ (∃ l, (build_loss (Idn.default 2) (ModelState.mk [] [] [] [] [])).label
          = (ModelState.mk [] [] [] [] []).label ++ [l])
      ∧ (∃ op, (build_loss (Idn.default 2) (ModelState.mk [] [] [] [] [])).loss
          = (ModelState.mk [] [] [] [] []).loss ++ [op])
      ∧ ∃ v1 v2 v3 v4 v5,
          (build_loss (Idn.default 2) (ModelState.mk [] [] [] [] [])).metrics
            = (ModelState.mk [] [] [] [] []).metrics ++
              [("mse", v1), ("mae", v2), ("regularization", v3),
               ("psnr", v4), ("ssim", v5)])) :=
  ⟨by simp, hook_frame_effects (Idn.default 2) (ModelState.mk [] [] [] [] [])
    (ModelState.mk [] [] [] [] []) (by simp)⟩

theorem channels_make_idn (cin D d s : Nat) (wd slope : Rat) (x : Tensor)
    (hx : channels cin x = some D) (hds : d = D / s) :
    channels cin (_make_idn wd slope x D d s) = some D := by
  simp [_make_idn, channels, hx, Nat.div_le_self, hds]

theorem channels_distillLoop (cin D d s : Nat) (wd slope : Rat) (n : Nat) (x : Tensor)
    (hx : channels cin x = some D) (hds : d = D / s) :
    channels cin (distillLoop wd slope D d s n x) = some D := by
  induction n generalizing x with
  | zero => exact hx
  | succ n ih => exact ih _ (channels_make_idn cin D d s wd slope x hx hds)

/-- C10: whenever the block parameters are well-shaped
(`d = D / s`, as with the defaults), the tensor `build_graph` appends to
`outputs` has exactly one channel (the reconstruction transposed
convolution uses 1 output filter); `build_loss` appends a 4-dimensional
single-channel `uint8` placeholder to `label`, and every recorded error
or image-quality metric and the minimized objective compare the
`float32`-cast of that placeholder with the last output. -/
theorem single_channel_output_and_uint8_label (m : Idn) (st st2 : ModelState)
    (cin : Nat) (hds : m.d = m.D / m.s) :
    (∃ t, (build_graph m st).outputs = st.outputs ++ [t]
        ∧ channels cin t = some 1)
    ∧ (build_loss m st2).label = st2.label ++
        [Tensor.placeholder DType.uint8 [none, none, none, some 1]]
    ∧ ("mse", Tensor.mse
        (Tensor.cast (Tensor.placeholder DType.uint8 [none, none, none, some 1])
          DType.float32)
        (st2.outputs.getLastD Tensor.input)) ∈ (build_loss m st2).metrics
    ∧ ("mae", Tensor.mae
        (Tensor.cast (Tensor.placeholder DType.uint8 [none, none, none, some 1])
          DType.float32)
        (st2.outputs.getLastD Tensor.input)) ∈ (build_loss m st2).metrics
    ∧ ("psnr", Tensor.psnr
        (Tensor.cast (Tensor.placeholder DType.uint8 [none, none, none, some 1])
          DType.float32)
        (st2.outputs.getLastD Tensor.input) 255) ∈ (build_loss m st2).metrics
    ∧ ("ssim", Tensor.ssim
        (Tensor.cast (Tensor.placeholder DType.uint8 [none, none, none, some 1])
          DType.float32)
        (st2.outputs.getLastD Tensor.input) 255) ∈ (build_loss m st2).metrics
    ∧ (build_loss m st2).loss = st2.loss ++
        [Tensor.adamMinimize Tensor.learningRate
          (if m.fine_tune then
            Tensor.add (Tensor.mae
              (Tensor.cast (Tensor.placeholder DType.uint8 [none, none, none, some 1])
                DType.float32)
              (st2.outputs.getLastD Tensor.input)) Tensor.regLosses
          else
            Tensor.add (Tensor.mse
              (Tensor.cast (Tensor.placeholder DType.uint8 [none, none, none, some 1])
                DType.float32)
              (st2.outputs.getLastD Tensor.input)) Tensor.regLosses)] := by
  refine ⟨⟨_, rfl, ?_⟩, rfl, ?_, ?_, ?_, ?_, build_loss_loss_eq m st2⟩
  · have hbase : channels cin
        ((st.inputs_preproc ++ [Tensor.input]).getLastD Tensor.input) = some cin := by
      rw [List.getLastD_concat]
      rfl
    have hfeat : channels cin
        (Tensor.leakyRelu (Tensor.conv2d
          (Tensor.leakyRelu (Tensor.conv2d
            ((st.inputs_preproc ++ [Tensor.input]).getLastD Tensor.input)
            m.D 3 m.weight_decay) m.leaky_slope)
          m.D 3 m.weight_decay) m.leaky_slope) = some m.D := by
      simp [channels, hbase]
    have hloop := channels_distillLoop cin m.D m.d m.s m.weight_decay m.leaky_slope
      m.blocks _ hfeat hds
    show channels cin
        (Tensor.conv2dTranspose
          (distillLoop m.weight_decay m.leaky_slope m.D m.d m.s m.blocks
            (Tensor.leakyRelu (Tensor.conv2d
              (Tensor.leakyRelu (Tensor.conv2d
                ((st.inputs_preproc ++ [Tensor.input]).getLastD Tensor.input)
                m.D 3 m.weight_decay) m.leaky_slope)
              m.D 3 m.weight_decay) m.leaky_slope))
          1 17 m.scale m.weight_decay) = some 1
    show (channels cin
        (distillLoop m.weight_decay m.leaky_slope m.D m.d m.s m.blocks
          (Tensor.leakyRelu (Tensor.conv2d
            (Tensor.leakyRelu (Tensor.conv2d
              ((st.inputs_preproc ++ [Tensor.input]).getLastD Tensor.input)
              m.D 3 m.weight_decay) m.leaky_slope)
            m.D 3 m.weight_decay) m.leaky_slope))).map (fun _ => 1) = some 1
    rw [hloop]
    rfl
  · rw [build_loss_metrics_eq]
    exact mem_dictInsert_of_ne _ _ _ _ _
      (mem_dictInsert_of_ne _ _ _ _ _
        (mem_dictInsert_of_ne _ _ _ _ _
          (mem_dictInsert_of_ne _ _ _ _ _
            (mem_dictInsert_self _ _ _) (by decide)) (by decide)) (by decide)) (by decide)
  · rw [build_loss_metrics_eq]
    exact mem_dictInsert_of_ne _ _ _ _ _
      (mem_dictInsert_of_ne _ _ _ _ _
        (mem_dictInsert_of_ne _ _ _ _ _
          (mem_dictInsert_self _ _ _) (by decide)) (by decide)) (by decide)
  · rw [build_loss_metrics_eq]
    exact mem_dictInsert_of_ne _ _ _ _ _ (mem_dictInsert_self _ _ _) (by decide)
  · rw [build_loss_metrics_eq]
    exact mem_dictInsert_self _ _ _

theorem single_channel_output_and_uint8_label_witness :
    (Idn.default 2).d = (Idn.default 2).D / (Idn.default 2).s
    ∧ ((∃ t, (build_graph (Idn.default 2) (ModelState.mk [] [] [] [] [])).outputs
          = (ModelState.mk [] [] [] [] []).outputs ++ [t]
        ∧ channels 3 t = some 1)
    ∧ (build_loss (Idn.default 2) (ModelState.mk [] [] [] [] [])).label
        = (ModelState.mk [] [] [] [] []).label ++
          [Tensor.placeholder DType.uint8 [none, none, none, some 1]]
    ∧ ("mse", Tensor.mse
        (Tensor.cast (Tensor.placeholder DType.uint8 [none, none, none, some 1])
          DType.float32)
        ((ModelState.mk [] [] [] [] []).outputs.getLastD Tensor.input))
        ∈ (build_loss (Idn.default 2) (ModelState.mk [] [] [] [] [])).metrics
    ∧ ("mae", Tensor.mae
        (Tensor.cast (Tensor.placeholder DType.uint8 [none, none, none, some 1])
          DType.float32)
        ((ModelState.mk [] [] [] [] []).outputs.getLastD Tensor.input))
        ∈ (build_loss (Idn.default 2) (ModelState.mk [] [] [] [] [])).metrics
    ∧ ("psnr", Tensor.psnr
        (Tensor.cast (Tensor.placeholder DType.uint8 [none, none, none, some 1])
          DType.float32)
        ((ModelState.mk [] [] [] [] []).outputs.getLastD Tensor.input) 255)
        ∈ (build_loss (Idn.default 2) (ModelState.mk [] [] [] [] [])).metrics
    ∧ ("ssim", Tensor.ssim
        (Tensor.cast (Tensor.placeholder DType.uint8 [none, none, none, some 1])
          DType.float32)
        ((ModelState.mk [] [] [] [] []).outputs.getLastD Tensor.input) 255)
        ∈ (build_loss (Idn.default 2) (ModelState.mk [] [] [] [] [])).metrics
    ∧ (build_loss (Idn.default 2) (ModelState.mk [] [] [] [] [])).loss
        = (ModelState.mk [] [] [] [] []).loss ++
        [Tensor.adamMinimize Tensor.learningRate
          (if (Idn.default 2).fine_tune then
            Tensor.add (Tensor.mae
              (Tensor.cast (Tensor.placeholder DType.uint8 [none, none, none, some 1])
                DType.float32)
              ((ModelState.mk [] [] [] [] []).outputs.getLastD Tensor.input))
              Tensor.regLosses
          else
            Tensor.add (Tensor.mse
              (Tensor.cast (Tensor.placeholder DType.uint8 [none, none, none, some 1])
                DType.float32)
              ((ModelState.mk [] [] [] [] []).outputs.getLastD Tensor.input))
              Tensor.regLosses)]) :=
  ⟨rfl, single_channel_output_and_uint8_label (Idn.default 2)
    (ModelState.mk [] [] [] [] []) (ModelState.mk [] [] [] [] []) 3 rfl⟩
